import Mathlib

/-!
# Verification of the Project-RPS bootcamp curriculum generator

Shallow embedding of the three source files of the repository:

* `BootcampForm` / `BootcampFormContainer` (the unnamed React component file):
  form state, `validate`, the submit / generate-AI triggers, and the result
  editor's load / download actions;
* `pages/api/generate-bootcamp.ts` (Next.js API route `handler`);
* `express_api.js` (Express variants: `/api/generate-bootcamp` and
  `/api/convert-to-docx`).

Impure inputs of the handlers (`Date.now()`, subprocess outcome, file reads,
`JSON.parse`) are passed in as an explicit environment record; observable
effects (subprocess invocations, temp-file writes and unlinks) are returned
as an explicit effect log, listed in program order, with the response
produced after all logged effects.
-/

namespace ProjectRPS

/-- JSON values, the data interchanged with both external Python scripts and
held by the result editor. Numbers are modelled as integers (every numeric
literal appearing in the sources is an integer). -/
inductive Json where
  | null
  | bool (b : Bool)
  | num (n : Int)
  | str (s : String)
  | arr (elems : List Json)
  | obj (fields : List (String × Json))

/-- Lookup of a key in a JS object's field list (first binding wins, as JS
objects have at most one binding per key). -/
def lookupField : List (String × Json) → String → Option Json
  | [], _ => none
  | (k, v) :: rest, key => if k = key then some v else lookupField rest key

/-- JS property read `j.key`: `undefined` (here `none`) on non-objects and
missing keys. -/
def getField : Json → String → Option Json
  | .obj fs, key => lookupField fs key
  | _, _ => none

/-- Update-or-append of a binding in a JS object's field list. -/
def setEntry : List (String × Json) → String → Json → List (String × Json)
  | [], key, v => [(key, v)]
  | (k, w) :: rest, key, v =>
    if k = key then (key, v) :: rest else (k, w) :: setEntry rest key v

/-- Whether the JS property assignment `parsed.key = v` throws a
`TypeError`: always on `null`; on number/string/boolean primitives only in
strict mode (the Next.js route is a strict-mode ES module, the CommonJS
`express_api.js` is sloppy mode, where the assignment is a silent no-op);
never on arrays or objects. -/
def assignThrows (strict : Bool) : Json → Bool
  | .null => true
  | .bool _ => strict
  | .num _ => strict
  | .str _ => strict
  | .arr _ => false
  | .obj _ => false

/-- JS truthiness of a JSON value. -/
def jsTruthy : Json → Bool
  | .null => false
  | .bool b => b
  | .num n => n != 0
  | .str s => s != ""
  | .arr _ => true
  | .obj _ => true

/-! ## Form collector (`BootcampForm`) -/

/-- The form record (`BootcampFormInput`): the five controlled fields.
`durasi` is an integer (the change handler coerces via `parseInt(value) || 0`). -/
structure FormInput where
  nama : String
  durasi : Int
  level : String
  deskripsi : String
  additional_context : String

/-- The error map, `Partial<Record<keyof BootcampFormInput, string>>`:
one optional message per form field. `validate` only ever sets the first
three. -/
structure FormErrors where
  nama : Option String
  durasi : Option String
  level : Option String
  deskripsi : Option String
  additional_context : Option String

/-- The emptiness check `Object.keys(newErrors).length === 0`. -/
def errorsEmpty (e : FormErrors) : Bool :=
  e.nama.isNone && e.durasi.isNone && e.level.isNone &&
    e.deskripsi.isNone && e.additional_context.isNone

/-- Function `validate()`: recomputes the error map from the three rules and returns
it together with whether it is empty (the source stores the map with
`setErrors` and returns the emptiness check). -/
def validate (f : FormInput) : FormErrors × Bool :=
  let newErrors : FormErrors :=
    { nama := if f.nama.trim = "" then some "Nama bootcamp wajib diisi" else none
      durasi := if f.durasi < 1 ∨ f.durasi > 24 then
          some "Durasi harus antara 1-24 minggu" else none
      level := none
      deskripsi := if f.deskripsi.trim = "" then
          some "Deskripsi bootcamp wajib diisi" else none
      additional_context := none }
  (newErrors, errorsEmpty newErrors)

/-- Component state relevant to submission: the form record and the error
map. -/
structure FormState where
  formData : FormInput
  errors : FormErrors

/-- A call to one of the caller-supplied handlers, with its payload. -/
inductive HandlerCall where
  | submit (d : FormInput)
  | generateAI (d : FormInput)

/-- Trigger `handleSubmit`: runs `validate()` (which stores the fresh error map) and
calls `onSubmit(formData)` exactly when validation succeeded. Returns the
updated state and the list of handler calls made. -/
def handleSubmit (st : FormState) : FormState × List HandlerCall :=
  let r := validate st.formData
  ({ st with errors := r.1 },
   if r.2 then [HandlerCall.submit st.formData] else [])

/-- Trigger `handleGenerateAI`: `if (validate() && onGenerateAI) onGenerateAI(formData)`.
`hasGen` records whether the optional `onGenerateAI` prop was supplied;
`validate()` runs (and stores errors) in every case. -/
def handleGenerateAI (hasGen : Bool) (st : FormState) : FormState × List HandlerCall :=
  let r := validate st.formData
  ({ st with errors := r.1 },
   if r.2 && hasGen then [HandlerCall.generateAI st.formData] else [])

/-! ## Result editor (`BootcampFormContainer`) -/

/-- Container state: `generatedData` (the in-memory document) and
`jsonContent` (the raw editable text buffer). The document type `J` and the
external `JSON.parse` / `JSON.stringify` are parameters of the embedding. -/
structure ContainerState (J : Type) where
  generatedData : Option J
  jsonContent : String

/-- Alert shown by a successful load. -/
def loadOkMsg : String :=
  "✅ JSON Loaded Successfully! You can now edit and convert it."

/-- Alert shown when the loaded file fails to parse. -/
def loadErrorMsg : String := "❌ Error loading JSON: Invalid format"

/-- Action `handleLoadJson` on a read file `content`: parse, and on success replace
both the in-memory value and the raw buffer (with the file's raw text); a
parse error leaves the state untouched. Returns the new state and the alert
message shown. -/
def handleLoadJson {J : Type} (parse : String → Option J) (content : String)
    (st : ContainerState J) : ContainerState J × String :=
  match parse content with
  | some parsed =>
    ({ generatedData := some parsed, jsonContent := content }, loadOkMsg)
  | none => (st, loadErrorMsg)

/-- Action `handleDownload`: parse the current buffer; on success the downloaded
file's content is `JSON.stringify(parsed, null, 2)` (returned as `some`);
on a parse error an alert is shown and nothing is offered (`none`). -/
def handleDownload {J : Type} (parse : String → Option J) (stringify : J → String)
    (st : ContainerState J) : Option String :=
  match parse st.jsonContent with
  | some parsed => some (stringify parsed)
  | none => none

/-! ## Shared API-layer model -/

/-- The destructured request body of the generate endpoints: each field is
`none` when absent from `req.body` (JS `undefined`). -/
structure GenBody where
  nama : Option String
  durasi : Option Int
  level : Option String
  deskripsi : Option String
  additional_context : Option String

/-- JS truthiness of a possibly-absent string field (`undefined` and `""`
are falsy). -/
def truthyS : Option String → Bool
  | none => false
  | some s => s != ""

/-- JS truthiness of a possibly-absent number field (`undefined` and `0`
are falsy). -/
def truthyN : Option Int → Bool
  | none => false
  | some n => n != 0

/-- The guard `!nama || !durasi || !level || !deskripsi`, negated: all four
required fields are present and truthy. The same check appears verbatim in
both generate-endpoint variants. -/
def requiredPresent (b : GenBody) : Bool :=
  truthyS b.nama && truthyN b.durasi && truthyS b.level && truthyS b.deskripsi

/-- Outcome of `execAsync`: normal completion with captured streams, or a
thrown error (non-zero exit or timeout) that still carries the captured
streams and an error message. -/
inductive ExecOutcome where
  | ok (stdout stderr : String)
  | err (stdout stderr msg : String)

/-- JSON response of the generate endpoints: HTTP status plus the
`{success, data?, error?}` body (`details` is the extra field the Express
variant attaches to its missing-output-file error). -/
structure Response where
  status : Nat
  success : Bool
  data : Option Json := none
  error : Option String := none
  details : Option String := none

/-- Effect log of one request, in program order: subprocess command lines
executed, temp-file paths written, temp-file paths unlinked. The response is
produced after every logged effect (`fs.unlink(...).catch(() => {})` makes
each unlink best-effort; a failed unlink is still logged as attempted). -/
structure FxLog where
  execs : List String
  writes : List String
  unlinks : List String

/-- The empty effect log. -/
def noFx : FxLog := ⟨[], [], []⟩

/-! ## Next.js API route (`pages/api/generate-bootcamp.ts`) -/

/-- Environment of one Next.js handler invocation: `process.cwd()`, the
three `Date.now()` observations (output path, `kode`, `id`), the two
`new Date().toISOString()` observations, the subprocess outcome, the
output-file read, and `JSON.parse` (an `Except` carries the thrown
message). -/
structure NextEnv where
  cwd : String
  now0 : Nat
  now1 : Nat
  now2 : Nat
  iso1 : String
  iso2 : String
  exec : ExecOutcome
  readOutput : Except String String
  parse : String → Except String Json
  typeErrMsg : String

/-- The output path `path.join(process.cwd(), 'temp', 'bootcamp_<Date.now()>.json')`. -/
def nextOutputPath (env : NextEnv) : String :=
  env.cwd ++ "/temp/bootcamp_" ++ toString env.now0 ++ ".json"

/-- The shell command the Next.js route builds (unsanitised interpolation,
joined with single spaces). -/
def nextCmd (b : GenBody) (env : NextEnv) : String :=
  String.intercalate " "
    ["python3",
     env.cwd ++ "/scripts/ai_to_json.py",
     "--name \"" ++ b.nama.getD "" ++ "\"",
     "--durasi " ++ toString (b.durasi.getD 0),
     "--level \"" ++ b.level.getD "" ++ "\"",
     "--context \"" ++ b.additional_context.getD "" ++ "\"",
     "--output \"" ++ nextOutputPath env ++ "\""]

/-- The identity block the generate endpoints attach:
`{nama, kode, durasi, tipe: 'Hybrid', level, kapasitas: 25}`; `kode` is the
endpoint-specific code string. -/
def identitasBlock (nama : String) (kode : String) (durasi : Int)
    (level : String) : Json :=
  .obj [("nama", .str nama), ("kode", .str kode), ("durasi", .num durasi),
        ("tipe", .str "Hybrid"), ("level", .str level),
        ("kapasitas", .num 25)]

/-- Metadata augmentation of an object parse result, shared by both generate
variants: the four property assignments
`bootcampData.identitas = ...; bootcampData.id = ...;
bootcampData.createdAt = ...; bootcampData.updatedAt = ...`, each
update-or-append on the object's fields. -/
def addMetadata (fs : List (String × Json)) (identitas : Json)
    (id createdAt updatedAt : String) : Json :=
  .obj (setEntry (setEntry (setEntry (setEntry fs "identitas" identitas)
    "id" (.str id)) "createdAt" (.str createdAt)) "updatedAt" (.str updatedAt))

/-- The metadata-assignment step on an arbitrary parse result: `none` when
the first assignment throws a `TypeError` (the enclosing catch then answers
500); otherwise the augmented value as observable through the JSON
serialisation of the response — objects gain the four properties, while
arrays (whose non-index properties are dropped by `JSON.stringify`) and, in
sloppy mode, primitives serialise unchanged. -/
def addMetadataChecked (strict : Bool) (parsed identitas : Json)
    (id createdAt updatedAt : String) : Option Json :=
  if assignThrows strict parsed then none
  else
    match parsed with
    | .obj fs => some (addMetadata fs identitas id createdAt updatedAt)
    | j => some j

/-- The Next.js API route `handler`, as a function of the request method and
destructured body and of the impure environment. Logging (`console.*`) and
`fs.mkdir` of the temp directory are not modelled. -/
def nextHandler (method : String) (b : GenBody) (env : NextEnv) :
    Response × FxLog :=
  if method ≠ "POST" then
    ({ status := 405, success := false, error := some "Method not allowed" }, noFx)
  else if ¬ requiredPresent b then
    ({ status := 400, success := false, error := some "Missing required fields" }, noFx)
  else
    let cmd := nextCmd b env
    match env.exec with
    | .err _ _ msg =>
      -- execAsync throws; the outer catch returns 500 with error.message
      ({ status := 500, success := false, error := some msg },
       { execs := [cmd], writes := [], unlinks := [] })
    | .ok _ _ =>
      match env.readOutput with
      | .error msg =>
        ({ status := 500, success := false, error := some msg },
         { execs := [cmd], writes := [], unlinks := [] })
      | .ok content =>
        match env.parse content with
        | .error msg =>
          ({ status := 500, success := false, error := some msg },
           { execs := [cmd], writes := [], unlinks := [] })
        | .ok parsed =>
          match addMetadataChecked true parsed
            (identitasBlock (b.nama.getD "") ("BOOT-" ++ toString env.now1)
              (b.durasi.getD 0) (b.level.getD ""))
            ("boot-" ++ toString env.now2) env.iso1 env.iso2 with
          | none =>
            -- the metadata assignment throws before fs.unlink; the catch answers 500
            ({ status := 500, success := false, error := some env.typeErrMsg },
             { execs := [cmd], writes := [], unlinks := [] })
          | some data =>
            ({ status := 200, success := true, data := some data },
             { execs := [cmd], writes := [], unlinks := [nextOutputPath env] })

/-! ## Express API (`express_api.js`) -/

/-- Check whether `needle` occurs as a contiguous run inside a character
list (the JS `String.prototype.includes`). -/
def occursIn (needle : List Char) : List Char → Bool
  | [] => needle.isEmpty
  | c :: rest => needle.isPrefixOf (c :: rest) || occursIn needle rest

/-- The JS `haystack.includes(needle)`. -/
def strIncludes (haystack needle : String) : Bool :=
  occursIn needle.data haystack.data

/-- The regex replace `/[\r\n]+/g → ' '`: each maximal run of CR/LF
characters becomes a single space. `prevNL` records whether the previous
character belonged to such a run. -/
def collapseNL (prevNL : Bool) : List Char → List Char
  | [] => []
  | c :: rest =>
    if c = '\r' ∨ c = '\n' then
      (if prevNL then [] else [' ']) ++ collapseNL true rest
    else c :: collapseNL false rest

/-- The regex replace `/"/g → '\\"'`: each double quote gains a preceding
backslash. -/
def escapeQuotes : List Char → List Char
  | [] => []
  | c :: rest =>
    if c = '"' then '\\' :: '"' :: escapeQuotes rest
    else c :: escapeQuotes rest

/-- The Express sanitisation of `additional_context`
(`additional_context ? ...replace... : ''`; a falsy context yields the empty
string). -/
def sanitizeContext (ctx : Option String) : String :=
  if truthyS ctx then
    String.mk (escapeQuotes (collapseNL false (ctx.getD "").data))
  else ""

/-- The hardcoded interpreter path literal of `express_api.js`, quotes
included. -/
def pythonExe : String :=
  "\"C:\\Users\\Asus\\AppData\\Local\\Programs\\Python\\Python312\\python.exe\""

/-- The JS `s.slice(-6)`: the last six characters (the whole string when
shorter). -/
def lastSix (s : String) : String := s.drop (s.length - 6)

/-- The Express `error.message || 'Unknown error'` fallback. -/
def errMsgOr (msg : String) : String :=
  if msg = "" then "Unknown error" else msg

/-- Environment of one Express generate-endpoint invocation: `__dirname`,
the `Date.now()` and ISO-timestamp observations, the subprocess outcome, the
`fs.access` existence check of the output file, the output-file read, and
`JSON.parse`. -/
structure ExpGenEnv where
  dirname : String
  now0 : Nat
  now1 : Nat
  now2 : Nat
  iso1 : String
  iso2 : String
  exec : ExecOutcome
  accessOk : Bool
  readOutput : Except String String
  parse : String → Except String Json
  typeErrMsg : String

/-- The Express generate endpoint's output path
`path.join(__dirname, 'temp', 'bootcamp_<Date.now()>.json')`. -/
def expOutputPath (env : ExpGenEnv) : String :=
  env.dirname ++ "/temp/bootcamp_" ++ toString env.now0 ++ ".json"

/-- The shell command the Express generate endpoint builds. -/
def expCmd (b : GenBody) (env : ExpGenEnv) : String :=
  String.intercalate " "
    [pythonExe,
     "\"" ++ env.dirname ++ "/scripts/ai_to_json.py\"",
     "--name \"" ++ b.nama.getD "" ++ "\"",
     "--durasi " ++ toString (b.durasi.getD 0),
     "--level \"" ++ b.level.getD "" ++ "\"",
     "--context \"" ++ sanitizeContext b.additional_context ++ "\"",
     "--output \"" ++ expOutputPath env ++ "\""]

/-- The Express `/api/generate-bootcamp` route handler. Differences from the
Next.js route: the 400 message names the fields, a thrown `execAsync` error
is inspected for two recognisable configuration problems before being
rethrown, a missing output file yields a specific 500 carrying the
subprocess stdout as `details`, and `kode` uses only the last six digits of
`Date.now()`. -/
def expressGenerate (b : GenBody) (env : ExpGenEnv) : Response × FxLog :=
  if ¬ requiredPresent b then
    ({ status := 400, success := false,
       error := some "Missing required fields: nama, durasi, level, deskripsi" }, noFx)
  else
    let cmd := expCmd b env
    let fx : FxLog := { execs := [cmd], writes := [], unlinks := [] }
    match env.exec with
    | .err so se msg =>
      if strIncludes so "API key not found" || strIncludes se "API key not found" then
        ({ status := 500, success := false,
           error := some "OpenAI API key not found. Please set OPENAI_API_KEY in .env.local file" }, fx)
      else if strIncludes so "Failed to initialize" || strIncludes se "Failed to initialize" then
        ({ status := 500, success := false,
           error := some "Failed to initialize OpenAI client. Check your API key is valid." }, fx)
      else
        -- throw execError; the outer catch answers 500 with error.message || 'Unknown error'
        ({ status := 500, success := false, error := some (errMsgOr msg) }, fx)
    | .ok so _ =>
      if ¬ env.accessOk then
        ({ status := 500, success := false,
           error := some "AI generation failed. Check if OpenAI API key is set in .env.local",
           details := some so }, fx)
      else
        match env.readOutput with
        | .error msg => ({ status := 500, success := false, error := some (errMsgOr msg) }, fx)
        | .ok content =>
          match env.parse content with
          | .error msg => ({ status := 500, success := false, error := some (errMsgOr msg) }, fx)
          | .ok parsed =>
            match addMetadataChecked false parsed
              (identitasBlock (b.nama.getD "")
                ("BOOT-" ++ lastSix (toString env.now1))
                (b.durasi.getD 0) (b.level.getD ""))
              ("boot-" ++ toString env.now2) env.iso1 env.iso2 with
            | none =>
              -- a null parse result throws at the assignment before fs.unlink
              ({ status := 500, success := false, error := some (errMsgOr env.typeErrMsg) }, fx)
            | some data =>
              ({ status := 200, success := true, data := some data },
               { execs := [cmd], writes := [], unlinks := [expOutputPath env] })

/-- Environment of one Express convert-endpoint invocation: `__dirname`, the
single `Date.now()` observation shared by both temp paths, the temp-JSON
write outcome, the subprocess outcome, and the DOCX read (its content
modelled as an opaque string of bytes). -/
structure ConvEnv where
  dirname : String
  now : Nat
  writeRes : Except String Unit
  exec : ExecOutcome
  readDocx : Except String String

/-- Temp JSON path of the convert endpoint. -/
def convJsonPath (env : ConvEnv) : String :=
  env.dirname ++ "/temp/bootcamp_" ++ toString env.now ++ ".json"

/-- Temp DOCX path of the convert endpoint. -/
def convDocxPath (env : ConvEnv) : String :=
  env.dirname ++ "/temp/bootcamp_" ++ toString env.now ++ ".docx"

/-- The shell command of the convert endpoint. -/
def convCmd (env : ConvEnv) : String :=
  pythonExe ++ " \"" ++ env.dirname ++ "/scripts/json_to_docx.py\" --input \"" ++
    convJsonPath env ++ "\" --output \"" ++ convDocxPath env ++ "\""

/-- The DOCX content type set on the success response. -/
def docxMime : String :=
  "application/vnd.openxmlformats-officedocument.wordprocessingml.document"

/-- Responses of the convert endpoint: a JSON error body, or the binary file
with its two headers. -/
inductive ConvResponse where
  | json (status : Nat) (success : Bool) (error : String)
  | file (contentType disposition : String) (content : String)

/-- The guard `!bootcampData || !bootcampData.identitas` of the convert
endpoint, negated: the body is a truthy JSON value with a truthy `identitas`
property. `none` models an absent/`undefined` body. -/
def hasIdentitas (body : Option Json) : Bool :=
  match body with
  | none => false
  | some j =>
    jsTruthy j &&
      (match getField j "identitas" with
       | none => false
       | some v => jsTruthy v)

/-- A body lacking the identity block: absent, or without an `identitas`
property. -/
def lacksIdentitas (body : Option Json) : Bool :=
  match body with
  | none => true
  | some j => (getField j "identitas").isNone

/-- The Express `/api/convert-to-docx` route handler. -/
def expressConvert (body : Option Json) (env : ConvEnv) : ConvResponse × FxLog :=
  if ¬ hasIdentitas body then
    (.json 400 false "Invalid bootcamp data", noFx)
  else
    match env.writeRes with
    | .error msg => (.json 500 false (errMsgOr msg), noFx)
    | .ok _ =>
      let cmd := convCmd env
      match env.exec with
      | .err _ _ msg =>
        (.json 500 false (errMsgOr msg),
         { execs := [cmd], writes := [convJsonPath env], unlinks := [] })
      | .ok _ _ =>
        match env.readDocx with
        | .error msg =>
          (.json 500 false (errMsgOr msg),
           { execs := [cmd], writes := [convJsonPath env], unlinks := [] })
        | .ok content =>
          (.file docxMime "attachment; filename=\"bootcamp_curriculum.docx\"" content,
           { execs := [cmd], writes := [convJsonPath env],
             unlinks := [convJsonPath env, convDocxPath env] })

/-! ## Concrete fixtures used by witnesses and counterexamples -/

/-- A request body with every field absent. -/
def noBody : GenBody := ⟨none, none, none, none, none⟩

/-- The request body of the spec's success scenario. -/
def wBody : GenBody :=
  ⟨some "Web Dev", some 8, some "Beginner", some "Learn web dev", none⟩

/-- A request body that carries everything except `deskripsi`. -/
def missingDescBody : GenBody := ⟨some "Web Dev", some 8, some "Beginner", none, none⟩

/-- A concrete stand-in for `JSON.parse` that accepts exactly the scenario's
script output. -/
def dParse : String → Except String Json :=
  fun s => if s = "\x7b\x7d" then .ok (.obj []) else .error "Unexpected token"

/-- A concrete Next.js environment in which the subprocess and the file read
succeed and the output file holds the scenario's script output. -/
def dNextEnv : NextEnv :=
  { cwd := "/app", now0 := 100, now1 := 101, now2 := 102,
    iso1 := "2026-01-01T00:00:00.000Z", iso2 := "2026-01-01T00:00:00.001Z",
    exec := .ok "" "", readOutput := .ok "\x7b\x7d", parse := dParse,
    typeErrMsg := "Cannot set properties of null" }

/-- A concrete Next.js environment whose subprocess throws. -/
def dNextEnvFail : NextEnv :=
  { dNextEnv with exec := .err "" "" "Command failed: python3" }

/-- A concrete Express generate environment in which the subprocess and the
file accesses succeed. -/
def dExpEnv : ExpGenEnv :=
  { dirname := "/srv", now0 := 200, now1 := 201, now2 := 202,
    iso1 := "2026-01-01T00:00:00.000Z", iso2 := "2026-01-01T00:00:00.001Z",
    exec := .ok "" "", accessOk := true, readOutput := .ok "\x7b\x7d",
    parse := dParse, typeErrMsg := "Cannot set properties of null" }

/-- A concrete Express generate environment whose subprocess throws. -/
def dExpEnvFail : ExpGenEnv :=
  { dExpEnv with exec := .err "" "" "Command failed" }

/-- A convert-endpoint request body that carries an identity block. -/
def identBody : Option Json :=
  some (.obj [("identitas", .obj [("nama", .str "Web Dev")])])

/-- A concrete convert environment whose subprocess throws after the temp
JSON was written. -/
def dConvEnvFail : ConvEnv :=
  { dirname := "/srv", now := 7, writeRes := .ok (),
    exec := .err "" "" "Command failed", readDocx := .error "ENOENT" }

/-- A concrete convert environment in which everything succeeds. -/
def dConvEnvOk : ConvEnv :=
  { dirname := "/srv", now := 7, writeRes := .ok (),
    exec := .ok "" "", readDocx := .ok "PK-docx-bytes" }

/-! ## Claims -/

/-- C1: `validate()` produces exactly the error entries for the violated
fields — `nama` when the name is empty after trimming, `durasi` when the
duration lies outside `[1, 24]`, `deskripsi` when the description is empty
after trimming — never touches the other two fields, and returns `true`
exactly when no rule is violated (the error map is then empty). -/
theorem validate_rules (f : FormInput) :
    (validate f).1.nama =
      (if f.nama.trim = "" then some "Nama bootcamp wajib diisi" else none) ∧
    (validate f).1.durasi =
      (if f.durasi < 1 ∨ f.durasi > 24 then
        some "Durasi harus antara 1-24 minggu" else none) ∧
    (validate f).1.deskripsi =
      (if f.deskripsi.trim = "" then
        some "Deskripsi bootcamp wajib diisi" else none) ∧
    (validate f).1.level = none ∧
    (validate f).1.additional_context = none ∧
    ((validate f).2 = true ↔
      ¬(f.nama.trim = "" ∨ (f.durasi < 1 ∨ f.durasi > 24) ∨
        f.deskripsi.trim = "")) := by
  refine ⟨rfl, rfl, rfl, rfl, rfl, ?_⟩
  simp only [validate, errorsEmpty]
  split_ifs with h1 h2 h3 <;> simp_all

/-- C8: both triggers first run `validate()` (which installs the fresh error
map while leaving the form record untouched) and call the corresponding
caller-supplied handler exactly once, with the exact current form record,
precisely when validation succeeds; on a failing validation the call list is
empty. -/
theorem submit_generate_calls (st : FormState) (hasGen : Bool) :
    handleSubmit st =
      ({ formData := st.formData, errors := (validate st.formData).1 },
       if (validate st.formData).2 then [HandlerCall.submit st.formData] else []) ∧
    handleGenerateAI hasGen st =
      ({ formData := st.formData, errors := (validate st.formData).1 },
       if (validate st.formData).2 && hasGen then
         [HandlerCall.generateAI st.formData] else []) :=
  ⟨rfl, rfl⟩

/-- C5: loading a file whose contents fail to parse leaves both the
in-memory document and the raw buffer exactly as they were and shows the
error alert; loading a file that parses replaces the buffer with the file's
raw text and the document with the parsed value. -/
theorem loadJson_spec {J : Type} (parse : String → Option J) (content : String)
    (st : ContainerState J) :
    handleLoadJson parse content st =
      match parse content with
      | none => (st, loadErrorMsg)
      | some v =>
        ({ generatedData := some v, jsonContent := content }, loadOkMsg) := by
  cases h : parse content <;> simp [handleLoadJson, h]

/-- C9: the Next.js generate route answers any non-POST request with a 405
`Method not allowed` body, performing no validation, invoking no subprocess
and touching no file. -/
theorem method_not_allowed (method : String) (h : method ≠ "POST")
    (b : GenBody) (env : NextEnv) :
    nextHandler method b env =
      ({ status := 405, success := false, error := some "Method not allowed" },
       noFx) := by
  unfold nextHandler
  rw [if_pos h]

/-- Witness for C9 at a concrete GET request. -/
theorem method_not_allowed_witness :
    nextHandler "GET" noBody dNextEnv =
      ({ status := 405, success := false, error := some "Method not allowed" },
       noFx) :=
  method_not_allowed "GET" (by decide) noBody dNextEnv

/-- C7: a convert request whose body is absent or has no `identitas`
property is answered 400 `Invalid bootcamp data`, with no temp file written
and no subprocess invoked. -/
theorem convert_rejects_missing_identitas (body : Option Json) (env : ConvEnv)
    (h : lacksIdentitas body = true) :
    expressConvert body env = (.json 400 false "Invalid bootcamp data", noFx) := by
  have hfalse : hasIdentitas body = false := by
    cases body with
    | none => rfl
    | some j =>
      simp only [lacksIdentitas, Option.isNone_iff_eq_none] at h
      simp [hasIdentitas, h]
  simp [expressConvert, hfalse]

/-- Witness for C7 at a concrete body without an identity block. -/
theorem convert_rejects_missing_identitas_witness :
    expressConvert (some (.obj [("modules", .arr [])])) dConvEnvOk =
      (.json 400 false "Invalid bootcamp data", noFx) :=
  convert_rejects_missing_identitas (some (.obj [("modules", .arr [])]))
    dConvEnvOk rfl

/-- Counterexample for C3: at the Express generate endpoint a request
missing `deskripsi` is answered 400, but the body's error string is not
exactly `Missing required fields` — it names the four fields. -/
theorem express_missing_fields_message :
    (expressGenerate missingDescBody dExpEnv).1.status = 400 ∧
    (expressGenerate missingDescBody dExpEnv).1.error ≠
      some "Missing required fields" ∧
    (expressGenerate missingDescBody dExpEnv).1.error =
      some "Missing required fields: nama, durasi, level, deskripsi" := by
  refine ⟨rfl, ?_, rfl⟩
  decide

/-- C3 (amended): a generate request missing at least one of the four
required fields is answered 400 with no subprocess invoked; the Next.js
route's body is exactly `{success: false, error: 'Missing required fields'}`
while the Express variant's error string additionally names the fields. -/
theorem missing_fields_responses (b : GenBody) (env : NextEnv)
    (envE : ExpGenEnv)
    (h : b.nama = none ∨ b.durasi = none ∨ b.level = none ∨ b.deskripsi = none) :
    nextHandler "POST" b env =
      ({ status := 400, success := false,
         error := some "Missing required fields" }, noFx) ∧
    expressGenerate b envE =
      ({ status := 400, success := false,
         error := some "Missing required fields: nama, durasi, level, deskripsi" },
       noFx) := by
  have hrp : requiredPresent b = false := by
    rcases h with h | h | h | h <;> simp [requiredPresent, h, truthyS, truthyN]
  constructor
  · simp [nextHandler, hrp]
  · simp [expressGenerate, hrp]

/-- Witness for the amended C3 at the spec's missing-description request. -/
theorem missing_fields_responses_witness :
    nextHandler "POST" missingDescBody dNextEnv =
      ({ status := 400, success := false,
         error := some "Missing required fields" }, noFx) ∧
    expressGenerate missingDescBody dExpEnv =
      ({ status := 400, success := false,
         error := some "Missing required fields: nama, durasi, level, deskripsi" },
       noFx) :=
  missing_fields_responses missingDescBody dNextEnv dExpEnv
    (Or.inr (Or.inr (Or.inr rfl)))

/-- Counterexample for C4: a convert request whose subprocess throws has
already written its temp JSON file, is answered 500, and deletes nothing —
the temp file survives the request. -/
theorem convert_failure_leaks_temp :
    (expressConvert identBody dConvEnvFail).2.writes =
      [convJsonPath dConvEnvFail] ∧
    (expressConvert identBody dConvEnvFail).2.unlinks = [] ∧
    (expressConvert identBody dConvEnvFail).1 =
      .json 500 false "Command failed" :=
  ⟨rfl, rfl, rfl⟩

/-- Helper for C4: every convert request either answers with the binary file
having unlinked both temp files, or answers a JSON body having unlinked
nothing. -/
theorem convertCleanupShape (body : Option Json) (env : ConvEnv) :
    (∃ c, (expressConvert body env).1 = .file docxMime
        "attachment; filename=\"bootcamp_curriculum.docx\"" c ∧
      (expressConvert body env).2.unlinks =
        [convJsonPath env, convDocxPath env]) ∨
    (∃ s ok e, (expressConvert body env).1 = .json s ok e ∧
      (expressConvert body env).2.unlinks = []) := by
  by_cases hid : hasIdentitas body = true
  · cases hwr : env.writeRes with
    | error msg =>
      right
      refine ⟨500, false, errMsgOr msg, ?_, ?_⟩ <;> simp [expressConvert, noFx, hid, hwr]
    | ok u =>
      cases hex : env.exec with
      | ok so se =>
        cases hrd : env.readDocx with
        | error msg =>
          right
          refine ⟨500, false, errMsgOr msg, ?_, ?_⟩ <;>
            simp [expressConvert, noFx, hid, hwr, hex, hrd]
        | ok c =>
          left
          refine ⟨c, ?_, ?_⟩ <;> simp [expressConvert, noFx, hid, hwr, hex, hrd]
      | err so se msg =>
        right
        refine ⟨500, false, errMsgOr msg, ?_, ?_⟩ <;>
          simp [expressConvert, noFx, hid, hwr, hex]
  · right
    refine ⟨400, false, "Invalid bootcamp data", ?_, ?_⟩ <;>
      simp [expressConvert, noFx, hid]

/-- Helper for C4: every Next.js generate request either answers 200 having
unlinked its output file, or answers a non-200 status having unlinked
nothing. -/
theorem nextCleanupShape (m : String) (b : GenBody) (env : NextEnv) :
    ((nextHandler m b env).1.status = 200 ∧
      (nextHandler m b env).2.unlinks = [nextOutputPath env]) ∨
    ((nextHandler m b env).1.status ≠ 200 ∧
      (nextHandler m b env).2.unlinks = []) := by
  by_cases hm : m = "POST"
  · subst hm
    by_cases hv : requiredPresent b = true
    · cases hex : env.exec with
      | err so se msg =>
        right; refine ⟨?_, ?_⟩ <;> simp [nextHandler, noFx, hv, hex]
      | ok so se =>
        cases hrd : env.readOutput with
        | error msg =>
          right; refine ⟨?_, ?_⟩ <;> simp [nextHandler, noFx, hv, hex, hrd]
        | ok content =>
          cases hp : env.parse content with
          | error msg =>
            right; refine ⟨?_, ?_⟩ <;> simp [nextHandler, noFx, hv, hex, hrd, hp]
          | ok parsed =>
            by_cases ht : assignThrows true parsed = true
            · right
              refine ⟨?_, ?_⟩ <;>
                simp [nextHandler, noFx, hv, hex, hrd, hp, addMetadataChecked, ht]
            · left
              cases parsed <;> simp_all [nextHandler, noFx, hv, hex, hrd, hp,
                addMetadataChecked, assignThrows]
    · right; refine ⟨?_, ?_⟩ <;> simp [nextHandler, noFx, hv]
  · right; refine ⟨?_, ?_⟩ <;> simp [nextHandler, noFx, hm]

/-- Helper for C4: every Express generate request either answers 200 having
unlinked its output file, or answers a non-200 status having unlinked
nothing. -/
theorem expCleanupShape (b : GenBody) (env : ExpGenEnv) :
    ((expressGenerate b env).1.status = 200 ∧
      (expressGenerate b env).2.unlinks = [expOutputPath env]) ∨
    ((expressGenerate b env).1.status ≠ 200 ∧
      (expressGenerate b env).2.unlinks = []) := by
  by_cases hv : requiredPresent b = true
  · cases hex : env.exec with
    | err so se msg =>
      by_cases h1 : (strIncludes so "API key not found" ||
          strIncludes se "API key not found") = true
      · right; refine ⟨?_, ?_⟩ <;> simp [expressGenerate, noFx, hv, hex, h1]
      · by_cases h2 : (strIncludes so "Failed to initialize" ||
            strIncludes se "Failed to initialize") = true
        · right; refine ⟨?_, ?_⟩ <;> simp [expressGenerate, noFx, hv, hex, h1, h2]
        · right; refine ⟨?_, ?_⟩ <;> simp [expressGenerate, noFx, hv, hex, h1, h2]
    | ok so se =>
      by_cases hacc : env.accessOk = true
      · cases hrd : env.readOutput with
        | error msg =>
          right; refine ⟨?_, ?_⟩ <;> simp [expressGenerate, noFx, hv, hex, hacc, hrd]
        | ok content =>
          cases hp : env.parse content with
          | error msg =>
            right
            refine ⟨?_, ?_⟩ <;> simp [expressGenerate, noFx, hv, hex, hacc, hrd, hp]
          | ok parsed =>
            by_cases ht : assignThrows false parsed = true
            · right
              refine ⟨?_, ?_⟩ <;>
                simp [expressGenerate, noFx, hv, hex, hacc, hrd, hp,
                  addMetadataChecked, ht]
            · left
              cases parsed <;> simp_all [expressGenerate, noFx, hv, hex, hacc, hrd,
                hp, addMetadataChecked, assignThrows]
      · right; refine ⟨?_, ?_⟩ <;> simp [expressGenerate, noFx, hv, hex, hacc]
  · right; refine ⟨?_, ?_⟩ <;> simp [expressGenerate, noFx, hv]

/-- C4 (amended): each endpoint deletes its temp files before the response
exactly when it reaches its success response — the convert endpoint unlinks
its input JSON and output DOCX before the binary file response, and each
generate variant unlinks its output file before the 200, deletion failures
silently ignored; every non-success response (validation failure,
subprocess error, unreadable or unparseable output, metadata-assignment
TypeError) unlinks nothing, so a temp file already created — in particular
the convert endpoint's written input JSON — is left behind. -/
theorem temp_file_cleanup :
    (∀ (body : Option Json) (env : ConvEnv) (ct d c : String),
        (expressConvert body env).1 = .file ct d c →
        (expressConvert body env).2.unlinks =
          [convJsonPath env, convDocxPath env]) ∧
    (∀ (body : Option Json) (env : ConvEnv) (s : Nat) (ok : Bool) (e : String),
        (expressConvert body env).1 = .json s ok e →
        (expressConvert body env).2.unlinks = []) ∧
    (∀ (m : String) (b : GenBody) (env : NextEnv),
        ((nextHandler m b env).1.status = 200 →
          (nextHandler m b env).2.unlinks = [nextOutputPath env]) ∧
        ((nextHandler m b env).1.status ≠ 200 →
          (nextHandler m b env).2.unlinks = [])) ∧
    (∀ (b : GenBody) (env : ExpGenEnv),
        ((expressGenerate b env).1.status = 200 →
          (expressGenerate b env).2.unlinks = [expOutputPath env]) ∧
        ((expressGenerate b env).1.status ≠ 200 →
          (expressGenerate b env).2.unlinks = [])) := by
  refine ⟨?_, ?_, ?_, ?_⟩
  · intro body env ct d c h
    rcases convertCleanupShape body env with ⟨c', h1, h2⟩ | ⟨s, ok, e, h1, h2⟩
    · exact h2
    · rw [h1] at h; exact ConvResponse.noConfusion h
  · intro body env s ok e h
    rcases convertCleanupShape body env with ⟨c', h1, h2⟩ | ⟨s', ok', e', h1, h2⟩
    · rw [h1] at h; exact ConvResponse.noConfusion h
    · exact h2
  · intro m b env
    rcases nextCleanupShape m b env with ⟨h1, h2⟩ | ⟨h1, h2⟩
    · exact ⟨fun _ => h2, fun hne => absurd h1 hne⟩
    · exact ⟨fun h200 => absurd h200 h1, fun _ => h2⟩
  · intro b env
    rcases expCleanupShape b env with ⟨h1, h2⟩ | ⟨h1, h2⟩
    · exact ⟨fun _ => h2, fun hne => absurd h1 hne⟩
    · exact ⟨fun h200 => absurd h200 h1, fun _ => h2⟩

/-- Witness for the amended C4, instantiating every conjunct: convert
success and subprocess failure, and for each generate variant a success and
a subprocess failure. -/
theorem temp_file_cleanup_witness :
    (expressConvert identBody dConvEnvOk).2.unlinks =
      [convJsonPath dConvEnvOk, convDocxPath dConvEnvOk] ∧
    (expressConvert identBody dConvEnvFail).2.unlinks = [] ∧
    (nextHandler "POST" wBody dNextEnv).2.unlinks = [nextOutputPath dNextEnv] ∧
    (nextHandler "POST" wBody dNextEnvFail).2.unlinks = [] ∧
    (expressGenerate wBody dExpEnv).2.unlinks = [expOutputPath dExpEnv] ∧
    (expressGenerate wBody dExpEnvFail).2.unlinks = [] :=
  ⟨temp_file_cleanup.1 identBody dConvEnvOk docxMime
     "attachment; filename=\"bootcamp_curriculum.docx\"" "PK-docx-bytes" rfl,
   temp_file_cleanup.2.1 identBody dConvEnvFail 500 false "Command failed" rfl,
   (temp_file_cleanup.2.2.1 "POST" wBody dNextEnv).1 rfl,
   (temp_file_cleanup.2.2.1 "POST" wBody dNextEnvFail).2 (by decide),
   (temp_file_cleanup.2.2.2 wBody dExpEnv).1 rfl,
   (temp_file_cleanup.2.2.2 wBody dExpEnvFail).2 (by decide)⟩

/-- C6: for any `JSON.parse` / `JSON.stringify` pair satisfying the standard
round-trip law, loading a file that parses and saving without edits
downloads `stringify` of the parsed value, and re-parsing that output gives
back exactly the parse of the original file. -/
theorem load_save_roundtrip {J : Type} (parse : String → Option J)
    (stringify : J → String)
    (hrt : ∀ v, parse (stringify v) = some v)
    (content : String) (v : J) (hp : parse content = some v)
    (st : ContainerState J) :
    handleDownload parse stringify (handleLoadJson parse content st).1 =
      some (stringify v) ∧
    parse (stringify v) = some v := by
  have hload : (handleLoadJson parse content st).1 =
      { generatedData := some v, jsonContent := content } := by
    simp [handleLoadJson, hp]
  constructor
  · rw [hload]
    simp [handleDownload, hp]
  · exact hrt v

/-- A one-value parse function used to instantiate the round-trip law in the
witness below. -/
def rtParse : String → Option Unit :=
  fun s => if s = "null" then some () else none

/-- The serialiser matching `rtParse`. -/
def rtPrint : Unit → String := fun _ => "null"

/-- Witness for C6 at a concrete load-then-save of the file `null`. -/
theorem load_save_roundtrip_witness :
    handleDownload rtParse rtPrint
      (handleLoadJson rtParse "null" ⟨none, ""⟩).1 = some (rtPrint ()) ∧
    rtParse (rtPrint ()) = some () :=
  load_save_roundtrip rtParse rtPrint (fun _ => rfl) "null" () rfl ⟨none, ""⟩

/-- C10: a generate request carrying all four required fields where at least
one is falsy (empty `nama`, `level` or `deskripsi`, or `durasi` 0) is
treated exactly like a request with the fields absent: both variants answer
their 400 missing-fields response and invoke no subprocess. -/
theorem falsy_field_rejected (b : GenBody) (env : NextEnv) (envE : ExpGenEnv)
    (_hall : b.nama.isSome = true ∧ b.durasi.isSome = true ∧
      b.level.isSome = true ∧ b.deskripsi.isSome = true)
    (hfalsy : b.nama = some "" ∨ b.durasi = some 0 ∨ b.level = some "" ∨
      b.deskripsi = some "") :
    nextHandler "POST" b env = nextHandler "POST" noBody env ∧
    nextHandler "POST" b env =
      ({ status := 400, success := false,
         error := some "Missing required fields" }, noFx) ∧
    expressGenerate b envE = expressGenerate noBody envE ∧
    expressGenerate b envE =
      ({ status := 400, success := false,
         error := some "Missing required fields: nama, durasi, level, deskripsi" },
       noFx) := by
  have hrp : requiredPresent b = false := by
    rcases hfalsy with h | h | h | h <;> simp [requiredPresent, h, truthyS, truthyN]
  have h1 : nextHandler "POST" b env =
      ({ status := 400, success := false,
         error := some "Missing required fields" }, noFx) := by
    simp [nextHandler, hrp]
  have h2 : expressGenerate b envE =
      ({ status := 400, success := false,
         error := some "Missing required fields: nama, durasi, level, deskripsi" },
       noFx) := by
    simp [expressGenerate, hrp]
  have h1n : nextHandler "POST" noBody env =
      ({ status := 400, success := false,
         error := some "Missing required fields" }, noFx) := by
    simp [nextHandler, requiredPresent, noBody, truthyS]
  have h2n : expressGenerate noBody envE =
      ({ status := 400, success := false,
         error := some "Missing required fields: nama, durasi, level, deskripsi" },
       noFx) := by
    simp [expressGenerate, requiredPresent, noBody, truthyS]
  exact ⟨h1.trans h1n.symm, h1, h2.trans h2n.symm, h2⟩

/-- Witness for C10 at a request explicitly carrying `durasi: 0`. -/
theorem falsy_field_rejected_witness :
    nextHandler "POST" ⟨some "Web Dev", some 0, some "Beginner", some "Learn web dev", none⟩ dNextEnv =
      nextHandler "POST" noBody dNextEnv ∧
    nextHandler "POST" ⟨some "Web Dev", some 0, some "Beginner", some "Learn web dev", none⟩ dNextEnv =
      ({ status := 400, success := false,
         error := some "Missing required fields" }, noFx) ∧
    expressGenerate ⟨some "Web Dev", some 0, some "Beginner", some "Learn web dev", none⟩ dExpEnv =
      expressGenerate noBody dExpEnv ∧
    expressGenerate ⟨some "Web Dev", some 0, some "Beginner", some "Learn web dev", none⟩ dExpEnv =
      ({ status := 400, success := false,
         error := some "Missing required fields: nama, durasi, level, deskripsi" },
       noFx) :=
  falsy_field_rejected ⟨some "Web Dev", some 0, some "Beginner", some "Learn web dev", none⟩
    dNextEnv dExpEnv ⟨rfl, rfl, rfl, rfl⟩ (Or.inr (Or.inl rfl))

end ProjectRPS
